import Mathlib

/-!
Verification of `autoPyTorch/pipeline/components/setup/lr_scheduler/ReduceLROnPlateau.py`.

The adapter class `ReduceLROnPlateau` is embedded shallowly: its mutable object state
becomes a structure, `fit` becomes a pure function returning the post-call state paired
with the raised-or-returned result, and the external `torch` scheduler constructor is
modelled as capturing its arguments.  Python numbers are modelled as rationals; Python
`float()` on a numeric value is the identity at rational precision and Python `int()`
truncates toward zero.
-/

namespace AutoPyTorch

/-- Python `float()` applied to a numeric value: identity at rational precision. -/
def pyFloat (q : ℚ) : ℚ := q

/-- Python `int()` applied to a numeric value: truncation toward zero. -/
def pyInt (q : ℚ) : ℤ := Int.tdiv q.num (q.den : ℤ)

/-- Model of `numpy.random.RandomState`: only its identity matters to this component,
the adapter stores it and never reads it. -/
structure RandomState where
  seed : Nat
deriving DecidableEq

/-- Handle produced by the external `torch.optim.lr_scheduler.ReduceLROnPlateau`
constructor, modelled as a record of the arguments the adapter passes to it.
`V` is the type of optimizer values carried in `fit_params`. -/
structure TorchReduceLROnPlateau (V : Type) where
  optimizer : V
  mode : String
  factor : ℚ
  patience : ℤ
deriving DecidableEq

/-- Object state of the adapter class `ReduceLROnPlateau` (fields set in `__init__`,
lines 34-47 of the source). -/
structure ReduceLROnPlateau (V : Type) where
  mode : String
  factor : ℚ
  patience : ℚ
  random_state : Option RandomState
  scheduler : Option (TorchReduceLROnPlateau V)
deriving DecidableEq

/-- Constructor `ReduceLROnPlateau.__init__`: stores `mode`, `factor`, `patience`,
`random_state` and sets `self.scheduler = None`. -/
def ReduceLROnPlateau.init (V : Type) (mode : String) (factor : ℚ) (patience : ℚ)
    (random_state : Option RandomState) : ReduceLROnPlateau V :=
  { mode := mode, factor := factor, patience := patience,
    random_state := random_state, scheduler := none }

/-- `ReduceLROnPlateau.fit` (source lines 49-72).  The keyword dictionary `fit_params`
is modelled as an association list with string keys.  The result is the pair of the
post-call object state and either the raised `ValueError` message (`Except.error`) or
the returned `self` (`Except.ok`).  The presence check and the raise happen before the
assignment to `self.scheduler`, so on the error path the state is unchanged. -/
def ReduceLROnPlateau.fit {V A B : Type} (self : ReduceLROnPlateau V) (X : A) (y : B)
    (fit_params : List (String × V)) :
    ReduceLROnPlateau V × Except String (ReduceLROnPlateau V) :=
  match fit_params.lookup "optimizer" with
  | none => (self, Except.error "Cannot use scheduler without an optimizer to wrap")
  | some opt =>
      let fitted : ReduceLROnPlateau V :=
        { self with
          scheduler := some
            { optimizer := opt
              mode := self.mode
              factor := pyFloat self.factor
              patience := pyInt self.patience } }
      (fitted, Except.ok fitted)

/-- `ReduceLROnPlateau.transform` (source lines 74-75): returns `X`. -/
def ReduceLROnPlateau.transform {V A : Type} (self : ReduceLROnPlateau V) (X : A) : A :=
  X

/-- Static method `ReduceLROnPlateau.get_properties` (source lines 77-82): returns a
fixed two-entry string dictionary, the `dataset_properties` argument is unused. -/
def ReduceLROnPlateau.get_properties {D : Type} (dataset_properties : Option D) :
    List (String × String) :=
  [("shortname", "CosineAnnealingWarmRestarts"),
   ("name", "Cosine Annealing WarmRestarts")]

/-- Hyperparameter descriptions from the `ConfigSpace` library, restricted to the three
constructors this file uses. -/
inductive Hyperparameter where
  | categorical (name : String) (choices : List String)
  | uniformInteger (name : String) (lower upper default_value : ℤ)
  | uniformFloat (name : String) (lower upper default_value : ℚ)
deriving DecidableEq

/-- A `ConfigSpace.ConfigurationSpace`, modelled as the list of added hyperparameters. -/
structure ConfigurationSpace where
  hyperparameters : List Hyperparameter
deriving DecidableEq

/-- Static method `ReduceLROnPlateau.get_hyperparameter_search_space` (source lines
84-94): builds the three hyperparameters and adds them to a fresh configuration space;
the `dataset_properties` argument is unused. -/
def ReduceLROnPlateau.get_hyperparameter_search_space {D : Type}
    (dataset_properties : Option D) : ConfigurationSpace :=
  let mode := Hyperparameter.categorical "mode" ["min", "max"]
  let patience := Hyperparameter.uniformInteger "patience" 5 20 10
  let factor := Hyperparameter.uniformFloat "factor" (1 / 100) (9 / 10) (1 / 10)
  { hyperparameters := [mode, patience, factor] }

/-- C1: for every stored configuration and every `fit_params` containing an optimizer
under the key `optimizer`, `fit` builds the underlying plateau scheduler with the
stored `mode`, the factor coerced by `float()`, the patience coerced by `int()`, binds
it to the supplied optimizer, stores the handle in the `scheduler` field, and returns
the adapter instance itself (the returned value is the post-call state). -/
theorem fit_with_optimizer_builds_scheduler {V A B : Type}
    (s : ReduceLROnPlateau V) (X : A) (y : B) (ps : List (String × V)) (opt : V)
    (h : ps.lookup "optimizer" = some opt) :
    s.fit X y ps =
      ({ s with scheduler := some ⟨opt, s.mode, pyFloat s.factor, pyInt s.patience⟩ },
       Except.ok
         { s with scheduler := some ⟨opt, s.mode, pyFloat s.factor, pyInt s.patience⟩ }) := by
  simp [ReduceLROnPlateau.fit, h]

/-- Witness for C1 at a concrete input: one optimizer entry in `fit_params`. -/
theorem fit_with_optimizer_builds_scheduler_witness :
    (([("optimizer", (5 : ℕ))] : List (String × ℕ)).lookup "optimizer" = some 5) ∧
    (ReduceLROnPlateau.init ℕ "min" (1 / 2) 10 none).fit (0 : ℕ) (0 : ℕ)
        [("optimizer", 5)] =
      ({ mode := "min", factor := 1 / 2, patience := 10, random_state := none,
         scheduler := some ⟨5, "min", 1 / 2, 10⟩ },
       Except.ok
         { mode := "min", factor := 1 / 2, patience := 10, random_state := none,
           scheduler := some ⟨5, "min", 1 / 2, 10⟩ }) := by
  refine ⟨rfl, ?_⟩
  have h := fit_with_optimizer_builds_scheduler
    (ReduceLROnPlateau.init ℕ "min" (1 / 2) 10 none) (0 : ℕ) (0 : ℕ)
    [("optimizer", 5)] 5 rfl
  exact h.trans rfl

/-- C2: `fit` raises the precondition `ValueError` exactly when the key `optimizer` is
absent from `fit_params`, for every stored `mode`, `factor`, `patience`,
`random_state` and every `X` and `y`; no other condition gates the error. -/
theorem fit_error_iff_no_optimizer {V A B : Type}
    (s : ReduceLROnPlateau V) (X : A) (y : B) (ps : List (String × V)) :
    (s.fit X y ps).2 =
        Except.error "Cannot use scheduler without an optimizer to wrap" ↔
      ps.lookup "optimizer" = none := by
  unfold ReduceLROnPlateau.fit
  cases hl : ps.lookup "optimizer" with
  | none => simp
  | some opt => simp

/-- C3: every freshly constructed adapter has `scheduler = none`, for all constructor
arguments, and every adapter state returned by a successful `fit` call has a present
(`some`) scheduler handle. -/
theorem scheduler_absent_before_present_after_fit {V A B : Type}
    (mode : String) (factor patience : ℚ) (rs : Option RandomState)
    (s t : ReduceLROnPlateau V) (X : A) (y : B) (ps : List (String × V))
    (h : (s.fit X y ps).2 = Except.ok t) :
    (ReduceLROnPlateau.init V mode factor patience rs).scheduler = none ∧
      t.scheduler.isSome = true := by
  refine ⟨rfl, ?_⟩
  unfold ReduceLROnPlateau.fit at h
  cases hl : ps.lookup "optimizer" with
  | none => rw [hl] at h; exact absurd h (by simp)
  | some opt =>
      rw [hl] at h
      simp only [Except.ok.injEq] at h
      subst h
      rfl

/-- Witness for C3 at a concrete input: a successful fit with one optimizer entry. -/
theorem scheduler_absent_before_present_after_fit_witness :
    ((ReduceLROnPlateau.init ℕ "min" (1 / 2) 10 none).fit (0 : ℕ) (0 : ℕ)
        [("optimizer", 5)]).2 =
      Except.ok
        { mode := "min", factor := 1 / 2, patience := 10, random_state := none,
          scheduler := some ⟨5, "min", 1 / 2, 10⟩ } ∧
    ((ReduceLROnPlateau.init ℕ "max" 1 7 none).scheduler = none ∧
      Option.isSome
        (some (⟨5, "min", 1 / 2, 10⟩ : TorchReduceLROnPlateau ℕ)) = true) := by
  refine ⟨rfl, ?_⟩
  have h := scheduler_absent_before_present_after_fit "max" 1 7 none
    (ReduceLROnPlateau.init ℕ "min" (1 / 2) 10 none)
    { mode := "min", factor := 1 / 2, patience := 10, random_state := none,
      scheduler := some ⟨5, "min", 1 / 2, 10⟩ }
    (0 : ℕ) (0 : ℕ) [("optimizer", 5)] rfl
  exact ⟨h.1, h.2⟩

/-- C4: a failed `fit` (no `optimizer` key in `fit_params`) leaves the adapter state
unchanged, so in particular the scheduler handle remains what it was (absent on an
unfit adapter). -/
theorem failed_fit_leaves_state_unchanged {V A B : Type}
    (s : ReduceLROnPlateau V) (X : A) (y : B) (ps : List (String × V))
    (h : ps.lookup "optimizer" = none) :
    (s.fit X y ps).1 = s ∧ (s.fit X y ps).1.scheduler = s.scheduler := by
  unfold ReduceLROnPlateau.fit
  rw [h]
  exact ⟨rfl, rfl⟩

/-- Witness for C4 at a concrete input: empty `fit_params`. -/
theorem failed_fit_leaves_state_unchanged_witness :
    (([] : List (String × ℕ)).lookup "optimizer" = none) ∧
    (((ReduceLROnPlateau.init ℕ "min" (1 / 2) 10 none).fit (0 : ℕ) (0 : ℕ) []).1 =
        ReduceLROnPlateau.init ℕ "min" (1 / 2) 10 none ∧
      ((ReduceLROnPlateau.init ℕ "min" (1 / 2) 10 none).fit (0 : ℕ) (0 : ℕ) []).1.scheduler =
        (ReduceLROnPlateau.init ℕ "min" (1 / 2) 10 none).scheduler) :=
  ⟨rfl, failed_fit_leaves_state_unchanged
    (ReduceLROnPlateau.init ℕ "min" (1 / 2) 10 none) (0 : ℕ) (0 : ℕ) [] rfl⟩

/-- C5: for every value of `dataset_properties` (the `none` case included, and any
dictionary type), the search space consists of exactly the categorical `mode` over
`min`/`max`, the integer `patience` on `[5, 20]` with default `10`, and the continuous
`factor` on `[0.01, 0.9]` with default `0.1`. -/
theorem search_space_fixed {D : Type} (dataset_properties : Option D) :
    ReduceLROnPlateau.get_hyperparameter_search_space dataset_properties =
      { hyperparameters :=
          [Hyperparameter.categorical "mode" ["min", "max"],
           Hyperparameter.uniformInteger "patience" 5 20 10,
           Hyperparameter.uniformFloat "factor" (1 / 100) (9 / 10) (1 / 10)] } :=
  rfl

/-- C6: `transform` returns its input unchanged, for every input of every type,
every adapter configuration and every scheduler-field content (fit or unfit). -/
theorem transform_identity {V A : Type} (s : ReduceLROnPlateau V) (x : A) :
    s.transform x = x :=
  rfl

/-- C7: `get_properties` returns the same fixed metadata pair (`shortname` and display
name) for every `dataset_properties` argument; being a static method it reads no
adapter state, so the value is also the same for every configuration, and the model is
a pure function with no side effects. -/
theorem get_properties_fixed {D : Type} (dataset_properties : Option D) :
    ReduceLROnPlateau.get_properties dataset_properties =
      [("shortname", "CosineAnnealingWarmRestarts"),
       ("name", "Cosine Annealing WarmRestarts")] :=
  rfl

/-- C8: the constructor captures `mode`, `factor`, `patience` and the randomness
source, and the post-call state of `fit` agrees with the pre-call state on every field
except `scheduler` (on both the error and the success path), so `fit` modifies only
the scheduler handle; `transform` returns its argument without touching any field,
and `get_properties` and `get_hyperparameter_search_space` are static methods that
take no adapter state at all. -/
theorem config_fields_never_mutated {V A B : Type}
    (mode : String) (factor patience : ℚ) (rs : Option RandomState)
    (s : ReduceLROnPlateau V) (X : A) (y : B) (ps : List (String × V)) :
    ((ReduceLROnPlateau.init V mode factor patience rs).mode = mode ∧
      (ReduceLROnPlateau.init V mode factor patience rs).factor = factor ∧
      (ReduceLROnPlateau.init V mode factor patience rs).patience = patience ∧
      (ReduceLROnPlateau.init V mode factor patience rs).random_state = rs) ∧
    (s.fit X y ps).1 = { s with scheduler := (s.fit X y ps).1.scheduler } ∧
    s.transform X = X := by
  refine ⟨⟨rfl, rfl, rfl, rfl⟩, ?_, rfl⟩
  unfold ReduceLROnPlateau.fit
  cases hl : ps.lookup "optimizer" with
  | none => rfl
  | some opt => rfl

/-- C9: the outcome of `fit` (post-call state and returned-or-raised result) does not
depend on the feature and label arguments `X` and `y`, even across different types. -/
theorem fit_independent_of_data {V A B C D : Type}
    (s : ReduceLROnPlateau V) (X : A) (y : B) (X2 : C) (y2 : D)
    (ps : List (String × V)) :
    s.fit X y ps = s.fit X2 y2 ps :=
  rfl

/-- C10: calling `fit` again on an already-fit adapter (scheduler handle present)
succeeds whenever `fit_params` contains an optimizer, and stores a freshly constructed
scheduler bound to that call's optimizer and the stored configuration; the previous
handle does not appear in the result. -/
theorem refit_replaces_scheduler {V A B : Type}
    (s : ReduceLROnPlateau V) (h0 : TorchReduceLROnPlateau V)
    (hfit : s.scheduler = some h0)
    (X : A) (y : B) (ps : List (String × V)) (opt : V)
    (hopt : ps.lookup "optimizer" = some opt) :
    (s.fit X y ps).2 = Except.ok (s.fit X y ps).1 ∧
      (s.fit X y ps).1.scheduler =
        some ⟨opt, s.mode, pyFloat s.factor, pyInt s.patience⟩ := by
  unfold ReduceLROnPlateau.fit
  rw [hopt]
  exact ⟨rfl, rfl⟩

/-- Witness for C10 at a concrete input: an adapter already holding a handle, refit
with a different optimizer. -/
theorem refit_replaces_scheduler_witness :
    (({ mode := "min", factor := 1 / 2, patience := 10, random_state := none,
        scheduler := some ⟨5, "min", 1 / 2, 10⟩ } : ReduceLROnPlateau ℕ).scheduler =
      some ⟨5, "min", 1 / 2, 10⟩) ∧
    (([("optimizer", (7 : ℕ))] : List (String × ℕ)).lookup "optimizer" = some 7) ∧
    ((({ mode := "min", factor := 1 / 2, patience := 10, random_state := none,
         scheduler := some ⟨5, "min", 1 / 2, 10⟩ } : ReduceLROnPlateau ℕ).fit
        (0 : ℕ) (0 : ℕ) [("optimizer", 7)]).2 =
      Except.ok
        (({ mode := "min", factor := 1 / 2, patience := 10, random_state := none,
            scheduler := some ⟨5, "min", 1 / 2, 10⟩ } : ReduceLROnPlateau ℕ).fit
          (0 : ℕ) (0 : ℕ) [("optimizer", 7)]).1 ∧
      (({ mode := "min", factor := 1 / 2, patience := 10, random_state := none,
          scheduler := some ⟨5, "min", 1 / 2, 10⟩ } : ReduceLROnPlateau ℕ).fit
        (0 : ℕ) (0 : ℕ) [("optimizer", 7)]).1.scheduler =
        some ⟨7, "min", 1 / 2, 10⟩) := by
  refine ⟨rfl, rfl, ?_⟩
  have h := refit_replaces_scheduler
    ({ mode := "min", factor := 1 / 2, patience := 10, random_state := none,
       scheduler := some ⟨5, "min", 1 / 2, 10⟩ } : ReduceLROnPlateau ℕ)
    ⟨5, "min", 1 / 2, 10⟩ rfl (0 : ℕ) (0 : ℕ) [("optimizer", 7)] 7 rfl
  exact ⟨h.1, h.2.trans rfl⟩

end AutoPyTorch

